import Mathlib

/-!
Shallow embedding of the autonomous-sailing guidance core
(`guidance_module.c`, `navigation.c` of the Femer/Firmware repository).

C `float` values are modelled as exact rationals (`ℚ`); the claims under
study concern control flow, piecewise formulas and sign logic, not binary
rounding. C casts from floating point to `int32_t` (truncation toward
zero) are modelled by `c_trunc`. Static mutable structs become explicit
state records threaded through the functions that mutate them; each Lean
definition mirrors, branch for branch, the C function of the same name.
-/

/-- The constant `M_PI_F` defined in guidance_module.c. -/
def M_PI_F : ℚ := 3.14159265358979323846

/-- C cast of a floating value to `int32_t`: truncation toward zero. -/
def c_trunc (x : ℚ) : ℤ := if 0 ≤ x then ⌊x⌋ else -⌊-x⌋

/-- Modelled from the spec: the tuned actuator constants
`RUDDER_SATURATION`, `SAIL_SATURATION`, `RUDDER_45_LEFT`, `SAIL_20` come
from `as_settings.h` / `guidance_module.h`, which are not among the given
source files; they are kept as abstract parameters of the embedding. -/
structure Settings where
  RUDDER_SATURATION : ℚ
  SAIL_SATURATION : ℚ
  RUDDER_45_LEFT : ℚ
  SAIL_20 : ℚ
deriving Repr

/-- The struct `reference_actions_s` from path_planning_data.h. -/
structure reference_actions_s where
  alpha_star : ℚ
  should_tack : Bool
deriving Repr, DecidableEq

/-- The static struct `tack_data` of guidance_module.c (its type). -/
structure TackData where
  boat_is_tacking : Bool
  tack_rudder_command : ℚ
  roll_before_tack : Fin 2 → ℚ
  yaw_before_tack : Fin 2 → ℚ
  roll_stop_tack : ℚ
  yaw_stop_tack : ℚ

/-- The initializer of the static struct `tack_data`. -/
def initTackData : TackData where
  boat_is_tacking := false
  tack_rudder_command := 0
  roll_before_tack := fun _ => 0
  yaw_before_tack := fun _ => 0
  roll_stop_tack := 2
  yaw_stop_tack := 1.04

/-- The static struct `sail_controller_data` of guidance_module.c. -/
structure SailControllerData where
  position_quantum : ℚ
  command_quantum : ℚ
deriving Repr, DecidableEq

/-- The static struct `pi_rudder_data` of guidance_module.c. -/
structure PiRudderData where
  p : ℚ
  i : ℚ
  kaw : ℚ
  cp : ℚ
  ci : ℚ
  use_conditional : Bool
  last_command : ℚ
  sum_error_pi : ℚ
deriving Repr, DecidableEq

/-- The initializer of the static struct `pi_rudder_data`. -/
def initPiRudderData : PiRudderData where
  p := 0
  i := 0
  kaw := 0.5
  cp := 1
  ci := 1
  use_conditional := true
  last_command := 0
  sum_error_pi := 0

/-- The sensor readings `guidance_module` reads from `structs_topics_s`:
`att.roll`, `att.yaw` from the attitude estimator and
`boat_weather_station.roll_r`, `boat_weather_station.heading_tn` from the
weather station. -/
structure StrsTopics where
  att_roll : ℚ
  att_yaw : ℚ
  ws_roll_r : ℚ
  ws_heading_tn : ℚ
deriving Repr, DecidableEq

/-- The one field of `parameters_qgc` used by `guidance_module`. -/
structure ParametersQgc where
  sail_servo : ℚ
deriving Repr, DecidableEq

/-- Embedding of `set_stop_tack` of guidance_module.c: stores the roll ratio as given
and the yaw threshold converted from degrees to radians. -/
def set_stop_tack (td : TackData) (roll_stop yaw_stop : ℚ) : TackData :=
  { td with roll_stop_tack := roll_stop,
            yaw_stop_tack := yaw_stop * M_PI_F / 180 }

/-- Embedding of `rudder_saturation` of guidance_module.c. -/
def rudder_saturation (s : Settings) (command : ℚ) : ℚ :=
  if command > s.RUDDER_SATURATION then s.RUDDER_SATURATION
  else if command < -s.RUDDER_SATURATION then -s.RUDDER_SATURATION
  else command

/-- Embedding of `pi_controller` of guidance_module.c. The static struct
`pi_rudder_data` is threaded explicitly: the function returns the action
together with the updated struct (`sum_error_pi` and `last_command` are
mutated). -/
def pi_controller (s : Settings) (st : PiRudderData) (ref meas : ℚ) :
    ℚ × PiRudderData :=
  let error := ref - meas
  if st.use_conditional then
    let abs_error := if error > 0 then error else -error
    let sum1 := st.sum_error_pi + error
    let i_gain := st.i / (1 + st.ci * error * error)
    let integral_part := i_gain * sum1
    let p_gain := st.p / (1 + st.cp * abs_error)
    let proportional_part := p_gain * error
    let action := proportional_part + integral_part
    (action, { st with sum_error_pi := sum1, last_command := action })
  else
    let input_kaw := rudder_saturation s st.last_command - st.last_command
    let sum1 := st.sum_error_pi + (error + st.kaw * input_kaw)
    let integral_part := st.i * sum1
    let proportional_part := st.p * error
    let action := proportional_part + integral_part
    (action, { st with sum_error_pi := sum1, last_command := action })

/-- Embedding of `sail_controller` of guidance_module.c; the external reading
`get_app_wind()` is passed in as `mean_apparent`. The C cast of the
sector to `int32_t` truncates toward zero (`c_trunc`). -/
def sail_controller (s : Settings) (d : SailControllerData)
    (mean_apparent : ℚ) : ℚ :=
  let abs_angle := if mean_apparent > 0 then mean_apparent else -mean_apparent
  let sector : ℤ := c_trunc (abs_angle / d.position_quantum)
  s.SAIL_SATURATION - sector * d.command_quantum

/-- Embedding of `set_sail_positions` of guidance_module.c. -/
def set_sail_positions (s : Settings) (num : ℤ) : SailControllerData where
  position_quantum := M_PI_F / (num : ℚ)
  command_quantum := s.SAIL_SATURATION / (num : ℚ)

/-- Embedding of `roll_stop_tack` of guidance_module.c (first tack-stop condition). -/
def roll_stop_tack (td : TackData) (angle : ℚ) (index_roll : Fin 2) : Bool :=
  if td.roll_before_tack index_roll > 0 then
    decide (angle ≤ -(td.roll_before_tack index_roll) / td.roll_stop_tack)
  else if td.roll_before_tack index_roll < 0 then
    decide (angle ≥ -(td.roll_before_tack index_roll) / td.roll_stop_tack)
  else
    false

/-- Embedding of `yaw_stop_tack` of guidance_module.c (second tack-stop condition,
with the ±π wraparound extension of the yaw angle). -/
def yaw_stop_tack (td : TackData) (angle : ℚ) (index_yaw : Fin 2) : Bool :=
  if td.tack_rudder_command > 0 then
    let a := if td.yaw_before_tack index_yaw < 0 then
               (if angle < 0 then angle else -2 * M_PI_F + angle)
             else angle
    decide (a - td.yaw_before_tack index_yaw ≤ -td.yaw_stop_tack)
  else
    let a := if td.yaw_before_tack index_yaw > 0 then
               (if angle > 0 then angle else 2 * M_PI_F + angle)
             else angle
    decide (a - td.yaw_before_tack index_yaw ≥ td.yaw_stop_tack)

/-- Embedding of `is_tack_completed` of guidance_module.c. -/
def is_tack_completed (td : TackData) (strs : StrsTopics) : Bool :=
  (roll_stop_tack td strs.att_roll 0 || roll_stop_tack td strs.ws_roll_r 1) &&
  (yaw_stop_tack td strs.att_yaw 0 || yaw_stop_tack td strs.ws_heading_tn 1)

/-- Embedding of `helmsman_tack_p2s` of guidance_module.c: the rule-based rudder and
sail commands for a port-to-starboard tack, returned as a pair. -/
def helmsman_tack_p2s (s : Settings) (alpha : ℚ) : ℚ × ℚ :=
  let rud :=
    if alpha ≤ -0.523598 then s.RUDDER_45_LEFT
    else if alpha ≤ 0 then (-s.RUDDER_45_LEFT / 0.523598) * alpha
    else if alpha ≤ 0.31416 then (s.RUDDER_45_LEFT / 0.31416) * alpha
    else if alpha ≤ 0.38397 then s.RUDDER_45_LEFT
    else if alpha ≤ 0.69813 then
      (-s.RUDDER_45_LEFT / 0.31416) * alpha + (s.RUDDER_45_LEFT / 0.31416) * 0.69813
    else 0
  let sails :=
    if alpha ≤ -0.523598 then (-s.SAIL_20 / 1.047197) * alpha - s.SAIL_20 * 0.5
    else if alpha ≤ 0.0872664 then 0
    else if alpha ≤ 0.270526 then (s.SAIL_20 / 0.183259) * alpha - s.SAIL_20 * 0.476190
    else if alpha ≤ 0.3403392 then s.SAIL_20
    else if alpha ≤ 0.523598 then (-s.SAIL_20 / 0.183259) * alpha + s.SAIL_20 * 2.857142857
    else 0
  (rud, sails)

/-- Embedding of `helmsman_tack_s2p` of guidance_module.c: uses the symmetry in
`helmsman_tack_p2s`, flipping the sign of alpha and of the rudder. -/
def helmsman_tack_s2p (s : Settings) (alpha : ℚ) : ℚ × ℚ :=
  let alpha_port := -alpha
  let r := helmsman_tack_p2s s alpha_port
  (-r.1, r.2)

/-- Embedding of `tack_action` of guidance_module.c. External reading
`get_alpha_yaw()` is passed in as `alpha_yaw`. Returns the (possibly
updated) reference actions, the updated `tack_data`, and the rudder and
sail commands written through the output pointers. The assignment to
`tack_data.tack_rudder_command` present in the original design is
commented out in the source and therefore absent here. -/
def tack_action (s : Settings) (ref_act : reference_actions_s)
    (td : TackData) (strs : StrsTopics) (alpha_yaw : ℚ) :
    reference_actions_s × TackData × ℚ × ℚ :=
  let rt :=
    if td.boat_is_tacking then
      if is_tack_completed td strs then
        ({ ref_act with should_tack := false },
         { td with boat_is_tacking := false })
      else (ref_act, td)
    else
      (ref_act,
       { td with boat_is_tacking := true,
                 roll_before_tack := fun i =>
                   if i = 0 then strs.att_roll else strs.ws_roll_r,
                 yaw_before_tack := fun i =>
                   if i = 0 then strs.att_yaw else strs.ws_heading_tn })
  let sailing_at_port_haul := decide (-rt.1.alpha_star < 0)
  let cmds := if sailing_at_port_haul then helmsman_tack_p2s s alpha_yaw
              else helmsman_tack_s2p s alpha_yaw
  (rt.1, rt.2, cmds.1, cmds.2)

/-- The inline clamp of the sail command at the end of
`guidance_module`: to `[0, SAIL_SATURATION]`. -/
def sail_clamp (s : Settings) (c : ℚ) : ℚ :=
  if c < 0 then 0 else if c > s.SAIL_SATURATION then s.SAIL_SATURATION else c

/-- The result of one `guidance_module` cycle: updated reference
actions, tack state, PI state, and the actuator array entries
`control[0]` (rudder) and `control[3]` (sail) that are published. -/
structure GuidanceOut where
  ref_act : reference_actions_s
  tack : TackData
  pi : PiRudderData
  control0 : ℚ
  control3 : ℚ

/-- Embedding of `guidance_module` of guidance_module.c. External smoothed readings
`get_alpha()`, `get_alpha_yaw()`, `get_app_wind()` are passed in as
`alpha`, `alpha_yaw`, `mean_apparent`. Note the two sequential `if`
statements of the source: when `tack_action` clears `should_tack`, the
second `if` runs the PI and sail controllers in the same cycle. -/
def guidance_module (s : Settings) (ref_act : reference_actions_s)
    (param_qgc : ParametersQgc) (td : TackData) (pist : PiRudderData)
    (scd : SailControllerData) (strs : StrsTopics)
    (alpha alpha_yaw mean_apparent : ℚ) : GuidanceOut :=
  let t :=
    if ref_act.should_tack then tack_action s ref_act td strs alpha_yaw
    else (ref_act, td, 0, 0)
  let ref1 := t.1
  let td1 := t.2.1
  let r :=
    if !ref1.should_tack then
      let pc := pi_controller s pist ref1.alpha_star alpha
      let sc := if param_qgc.sail_servo < 0 then
                  sail_controller s scd mean_apparent
                else param_qgc.sail_servo
      (pc.1, sc, pc.2)
    else (t.2.2.1, t.2.2.2, pist)
  let rudder_command := rudder_saturation s r.1
  let sail_command := sail_clamp s r.2.1
  { ref_act := ref1, tack := td1, pi := r.2.2,
    control0 := rudder_command, control3 := sail_command }

/-- The fields of the static struct `ned_to_race_s` of navigation.c used
by `geo_to_race`. -/
structure NedToRaceS where
  sin_mwd : ℚ
  cos_mwd : ℚ
  n0_dm : ℤ
  e0_dm : ℤ
deriving Repr, DecidableEq

/-- Embedding of `geo_to_race` of navigation.c, factored at its call to `geo_to_ned`:
the NED coordinates `north_dm`, `east_dm` computed by `geo_to_ned` are
taken as inputs (the geodetic pipeline involves transcendental functions
and is not needed by the race-frame formula under study). The two
`int32_t` outputs truncate the floating computation toward zero. -/
def geo_to_race (st : NedToRaceS) (north_dm east_dm : ℤ) : ℤ × ℤ :=
  (c_trunc (-st.cos_mwd * (north_dm : ℚ) - st.sin_mwd * (east_dm : ℚ) +
      st.cos_mwd * (st.n0_dm : ℚ) + st.sin_mwd * (st.e0_dm : ℚ)),
   c_trunc (-st.sin_mwd * (north_dm : ℚ) + st.cos_mwd * (east_dm : ℚ) +
      st.sin_mwd * (st.n0_dm : ℚ) - st.cos_mwd * (st.e0_dm : ℚ)))

/-- The turning-right branch (the `else` arm) of `yaw_stop_tack`, stated
on its own so that invariants can say which branch is taken. -/
def yaw_stop_tack_right (td : TackData) (angle : ℚ) (index_yaw : Fin 2) : Bool :=
  let a := if td.yaw_before_tack index_yaw > 0 then
             (if angle > 0 then angle else 2 * M_PI_F + angle)
           else angle
  decide (a - td.yaw_before_tack index_yaw ≥ td.yaw_stop_tack)

/-- Reachable values of the static struct `tack_data`: its initializer,
closed under the program operations that write to it (`set_stop_tack`,
`tack_action`, and whole `guidance_module` cycles). -/
inductive TackDataReachable : TackData → Prop
  | init : TackDataReachable initTackData
  | set_stop (td : TackData) (r y : ℚ) :
      TackDataReachable td → TackDataReachable (set_stop_tack td r y)
  | tack (td : TackData) (s : Settings) (ref_act : reference_actions_s)
      (strs : StrsTopics) (alpha_yaw : ℚ) :
      TackDataReachable td →
      TackDataReachable (tack_action s ref_act td strs alpha_yaw).2.1
  | cycle (td : TackData) (s : Settings) (ref_act : reference_actions_s)
      (pq : ParametersQgc) (pist : PiRudderData) (scd : SailControllerData)
      (strs : StrsTopics) (alpha alpha_yaw mean_apparent : ℚ) :
      TackDataReachable td →
      TackDataReachable
        (guidance_module s ref_act pq td pist scd strs
          alpha alpha_yaw mean_apparent).tack

/-- A concrete settings valuation used in witnesses and counterexamples
(rudder saturation 1, sail saturation 1, rudder-45 0.35, sail-20 0.56). -/
def stdSettings : Settings := ⟨1, 1, 35/100, 56/100⟩

/-- Concrete tack state for the C1 counterexample: mid-tack, with start
angles chosen so that both completion conditions hold. -/
def C1cexTd : TackData where
  boat_is_tacking := true
  tack_rudder_command := 0
  roll_before_tack := fun _ => 1
  yaw_before_tack := fun i => if i = 0 then -3 else 0
  roll_stop_tack := 2
  yaw_stop_tack := 1.04

/-- Concrete sensor readings for the C1 counterexample. -/
def C1cexStrs : StrsTopics := ⟨-1, 0, 0, 0⟩

/-- Concrete tack state for the C1 witness: mid-tack, start rolls zero so
the completion check fails. -/
def C1witTd : TackData := { C1cexTd with roll_before_tack := fun _ => 0 }

/-- Concrete tack state for the C3 counterexample: rudder command at its
initial 0 (turning right branch), positive start yaw. -/
def C3cexTd : TackData := { initTackData with yaw_before_tack := fun _ => 1/10 }

/-- Concrete tack state for the C3 witness scenario: turning left
(positive rudder command), start yaw -170 degrees, stop threshold set to
60 degrees through `set_stop_tack`. -/
def C3witTd : TackData :=
  set_stop_tack
    { initTackData with tack_rudder_command := 1,
                        yaw_before_tack := fun _ => -(170 * M_PI_F / 180) }
    2 60

/-- The C ternary `(x > 0) ? x : -x` is the absolute value. -/
theorem c_abs_eq (x : ℚ) : (if x > 0 then x else -x) = |x| := by
  split
  · rename_i h
    exact (abs_of_pos h).symm
  · rename_i h
    push_neg at h
    exact (abs_of_nonpos h).symm

/-- Claim C6: for each roll source i, `roll_stop_tack` returns true iff
either the start roll was positive and the measured roll has dropped to
at most minus the start roll divided by the stop ratio, or the start roll
was negative and the measured roll has risen to at least that value; a
start roll of exactly 0 can never signal completion. -/
theorem C6_roll_stop_tack_iff (td : TackData) (angle : ℚ) (i : Fin 2) :
    (roll_stop_tack td angle i = true ↔
      (0 < td.roll_before_tack i ∧
        angle ≤ -(td.roll_before_tack i) / td.roll_stop_tack) ∨
      (td.roll_before_tack i < 0 ∧
        angle ≥ -(td.roll_before_tack i) / td.roll_stop_tack)) ∧
    (td.roll_before_tack i = 0 → roll_stop_tack td angle i = false) := by
  unfold roll_stop_tack
  constructor
  · split
    · rename_i h
      simp only [decide_eq_true_eq]
      constructor
      · intro ha
        exact Or.inl ⟨h, ha⟩
      · rintro (⟨_, ha⟩ | ⟨hneg, _⟩)
        · exact ha
        · linarith
    · rename_i h0
      split
      · rename_i h
        simp only [decide_eq_true_eq]
        constructor
        · intro ha
          exact Or.inr ⟨h, ha⟩
        · rintro (⟨hpos, _⟩ | ⟨_, ha⟩)
          · exact absurd hpos h0
          · exact ha
      · rename_i h1
        push_neg at h0 h1
        constructor
        · intro hfalse
          exact absurd hfalse (by simp)
        · rintro (⟨hpos, _⟩ | ⟨hneg, _⟩)
          · linarith
          · linarith
  · intro h0
    rw [if_neg (by rw [h0]; exact lt_irrefl (0 : ℚ)),
        if_neg (by rw [h0]; exact lt_irrefl (0 : ℚ))]

/-- Closed instance of C6: the initial tack state has start roll 0, so
its roll condition can never fire. -/
theorem C6_roll_stop_tack_iff_witness :
    initTackData.roll_before_tack 0 = 0 ∧
    roll_stop_tack initTackData 1 0 = false :=
  ⟨rfl, (C6_roll_stop_tack_iff initTackData 1 0).2 rfl⟩

/-- Claim C8: `helmsman_tack_s2p` is the direction-reversed image of
`helmsman_tack_p2s`: sail symmetric, rudder sign-flipped, alpha negated. -/
theorem C8_helmsman_s2p_symmetry (s : Settings) (alpha : ℚ) :
    helmsman_tack_s2p s alpha =
      (-(helmsman_tack_p2s s (-alpha)).1, (helmsman_tack_p2s s (-alpha)).2) := rfl

/-- Claim C9: `geo_to_race` applies to the NED coordinates produced by
`geo_to_ned` exactly the stated rotation-plus-translation formula, with
the two decimeter outputs truncated to integers. -/
theorem C9_geo_to_race_formula (st : NedToRaceS) (north_dm east_dm : ℤ) :
    geo_to_race st north_dm east_dm =
      (c_trunc (-st.cos_mwd * (north_dm : ℚ) - st.sin_mwd * (east_dm : ℚ) +
          st.cos_mwd * (st.n0_dm : ℚ) + st.sin_mwd * (st.e0_dm : ℚ)),
       c_trunc (-st.sin_mwd * (north_dm : ℚ) + st.cos_mwd * (east_dm : ℚ) +
          st.sin_mwd * (st.n0_dm : ℚ) - st.cos_mwd * (st.e0_dm : ℚ))) := rfl

/-- Claim C10: after `set_sail_positions n` with `n > 0`, the sail
command is `SAIL_SATURATION - floor(|a| / (pi/n)) * (SAIL_SATURATION/n)`
for every mean apparent wind angle `a`. -/
theorem C10_sail_controller_formula (s : Settings) (n : ℤ) (hn : 0 < n) (a : ℚ) :
    sail_controller s (set_sail_positions s n) a =
      s.SAIL_SATURATION - ⌊|a| / (M_PI_F / (n : ℚ))⌋ * (s.SAIL_SATURATION / (n : ℚ)) := by
  have hq : (0 : ℚ) < M_PI_F / (n : ℚ) := by
    apply div_pos
    · norm_num [M_PI_F]
    · exact_mod_cast hn
  have hnn : (0 : ℚ) ≤ |a| / (M_PI_F / (n : ℚ)) := div_nonneg (abs_nonneg a) hq.le
  simp only [sail_controller, set_sail_positions, c_trunc, c_abs_eq, if_pos hnn]

/-- Closed instance of C10 with 4 sail positions: apparent wind exactly
pi/4 lands in sector 1, giving the boundary command
`SAIL_SATURATION - SAIL_SATURATION/4`. -/
theorem C10_sail_controller_formula_witness :
    (0 : ℤ) < 4 ∧
    sail_controller stdSettings (set_sail_positions stdSettings 4) (M_PI_F / 4) =
      stdSettings.SAIL_SATURATION -
        ⌊|M_PI_F / 4| / (M_PI_F / ((4 : ℤ) : ℚ))⌋ *
          (stdSettings.SAIL_SATURATION / ((4 : ℤ) : ℚ)) ∧
    sail_controller stdSettings (set_sail_positions stdSettings 4) (M_PI_F / 4) =
      stdSettings.SAIL_SATURATION - stdSettings.SAIL_SATURATION / 4 :=
  ⟨by norm_num,
   C10_sail_controller_formula stdSettings 4 (by norm_num) (M_PI_F / 4),
   by norm_num [sail_controller, set_sail_positions, c_trunc, M_PI_F, stdSettings]⟩

/-- Claim C7 is false as stated: in conditional mode the proportional
gain is attenuated by `1 + cp * |error|`, so with `p = 1`, `cp = 1`,
`i = 0`, reference 1 and measurement 0 the controller returns 1/2, not
`p * error = 1`. -/
theorem C7_counterexample :
    ({ p := 1, i := 0, kaw := 1/2, cp := 1, ci := 1, use_conditional := true,
       last_command := 0, sum_error_pi := 0 } : PiRudderData).i = 0 ∧
    (pi_controller stdSettings
      { p := 1, i := 0, kaw := 1/2, cp := 1, ci := 1, use_conditional := true,
        last_command := 0, sum_error_pi := 0 } 1 0).1 = 1/2 ∧
    (1 : ℚ) * ((1 : ℚ) - 0) = 1 ∧ ((1 : ℚ)/2) ≠ 1 := by
  norm_num [pi_controller, stdSettings]

/-- Amended C7: with integral gain 0, the classical-mode controller
returns exactly `p * error`, while the conditional-mode controller
returns `(p / (1 + cp * |error|)) * error` (the attenuated proportional
action), which equals `p * error` only when `cp * error = 0`. -/
theorem C7_pi_controller_i_zero (s : Settings) (st : PiRudderData)
    (ref meas : ℚ) (hi : st.i = 0) :
    (st.use_conditional = false →
      (pi_controller s st ref meas).1 = st.p * (ref - meas)) ∧
    (st.use_conditional = true →
      (pi_controller s st ref meas).1 =
        st.p / (1 + st.cp * |ref - meas|) * (ref - meas)) := by
  constructor
  · intro h
    simp only [pi_controller, h, Bool.false_eq_true, if_false, hi, zero_mul, add_zero]
  · intro h
    simp only [pi_controller, h, if_true, hi, c_abs_eq, zero_div, zero_mul, add_zero]

/-- Closed instance of amended C7: the initial PI state has `i = 0` and
conditional mode, and the controller indeed returns the attenuated
proportional action. -/
theorem C7_pi_controller_i_zero_witness :
    initPiRudderData.i = 0 ∧
    ((pi_controller stdSettings initPiRudderData 1 0).1 =
      initPiRudderData.p / (1 + initPiRudderData.cp * |(1 : ℚ) - 0|) * ((1 : ℚ) - 0)) :=
  ⟨rfl, (C7_pi_controller_i_zero stdSettings initPiRudderData 1 0 rfl).2 rfl⟩

/-- Claim C3 fails as stated at the y = 0 boundary of the turning-right
branch: the code extends every non-positive current yaw by +2 pi, while
the claim's rule ("a negative current yaw is replaced") leaves yaw 0
unextended. With start yaw 0.1, threshold 1.04 and current yaw 0 the
code reports completion, but the claim's formula (0 - 0.1 >= 1.04) is
false. -/
theorem C3_counterexample :
    ¬ 0 < C3cexTd.tack_rudder_command ∧
    0 < C3cexTd.yaw_before_tack 0 ∧
    ¬ ((0 : ℚ) < 0) ∧
    yaw_stop_tack C3cexTd 0 0 = true ∧
    ¬ ((0 : ℚ) - C3cexTd.yaw_before_tack 0 ≥ C3cexTd.yaw_stop_tack) := by
  refine ⟨by norm_num [C3cexTd, initTackData], by norm_num [C3cexTd, initTackData],
    by norm_num, ?_, by norm_num [C3cexTd, initTackData]⟩
  norm_num [yaw_stop_tack, C3cexTd, initTackData, M_PI_F]

/-- Amended C3: in the left-turn branch (stored command positive, start
yaw negative) a non-negative current yaw is extended to y - 2 pi and the
check fires iff the swept angle reaches -yaw_stop_tack; in the
right-turn branch (stored command not positive, start yaw positive) a
non-positive current yaw (including 0) is extended to y + 2 pi and the
check fires iff the swept angle reaches +yaw_stop_tack. -/
theorem C3_yaw_stop_tack_characterization (td : TackData) (y : ℚ) (i : Fin 2) :
    (0 < td.tack_rudder_command → td.yaw_before_tack i < 0 →
      (yaw_stop_tack td y i = true ↔
        (if y < 0 then y else y - 2 * M_PI_F) - td.yaw_before_tack i ≤
          -td.yaw_stop_tack)) ∧
    (¬ 0 < td.tack_rudder_command → 0 < td.yaw_before_tack i →
      (yaw_stop_tack td y i = true ↔
        (if 0 < y then y else y + 2 * M_PI_F) - td.yaw_before_tack i ≥
          td.yaw_stop_tack)) := by
  constructor
  · intro hc hb
    simp only [yaw_stop_tack, gt_iff_lt]
    rw [if_pos hc, if_pos hb]
    simp only [decide_eq_true_eq]
    by_cases hy : y < 0
    · rw [if_pos hy, if_pos hy]
    · rw [if_neg hy, if_neg hy]
      constructor <;> intro h <;> linarith
  · intro hc hb
    simp only [yaw_stop_tack, gt_iff_lt]
    rw [if_neg hc, if_pos hb]
    simp only [decide_eq_true_eq, ge_iff_le]
    by_cases hy : 0 < y
    · rw [if_pos hy, if_pos hy]
    · rw [if_neg hy, if_neg hy]
      constructor <;> intro h <;> linarith

/-- Closed instance of amended C3 (the spec's left-turn scenario): start
yaw -170 degrees, threshold 60 degrees; just past the +-180 boundary
(current yaw +170 degrees, swept -20 degrees) the check does not fire,
and it fires at +100 degrees (swept -90 degrees). -/
theorem C3_yaw_stop_tack_characterization_witness :
    0 < C3witTd.tack_rudder_command ∧
    C3witTd.yaw_before_tack 0 < 0 ∧
    (yaw_stop_tack C3witTd (170 * M_PI_F / 180) 0 = true ↔
      (if (170 * M_PI_F / 180 : ℚ) < 0 then (170 * M_PI_F / 180 : ℚ)
       else 170 * M_PI_F / 180 - 2 * M_PI_F) - C3witTd.yaw_before_tack 0 ≤
        -C3witTd.yaw_stop_tack) ∧
    yaw_stop_tack C3witTd (170 * M_PI_F / 180) 0 = false ∧
    yaw_stop_tack C3witTd (100 * M_PI_F / 180) 0 = true := by
  refine ⟨?_, ?_, ?_, ?_, ?_⟩
  · norm_num [C3witTd, set_stop_tack, initTackData]
  · norm_num [C3witTd, set_stop_tack, initTackData, M_PI_F]
  · exact (C3_yaw_stop_tack_characterization C3witTd (170 * M_PI_F / 180) 0).1
      (by norm_num [C3witTd, set_stop_tack, initTackData])
      (by norm_num [C3witTd, set_stop_tack, initTackData, M_PI_F])
  · norm_num [yaw_stop_tack, C3witTd, set_stop_tack, initTackData, M_PI_F]
  · norm_num [yaw_stop_tack, C3witTd, set_stop_tack, initTackData, M_PI_F]

/-- Claim C4 is false in its last conjunct: starting a tack does not
record the turn direction. With alpha_star = -1 (so -alpha_star > 0, for
which the claim demands a positively signed stored tack rudder command),
the stored command after `tack_action` is still 0 — the assignment is
commented out in the source. -/
theorem C4_counterexample :
    initTackData.boat_is_tacking = false ∧
    0 < -(((⟨-1, true⟩ : reference_actions_s)).alpha_star) ∧
    (tack_action stdSettings ⟨-1, true⟩ initTackData
      ⟨0, 0, 0, 0⟩ 0).2.1.boat_is_tacking = true ∧
    (tack_action stdSettings ⟨-1, true⟩ initTackData
      ⟨0, 0, 0, 0⟩ 0).2.1.tack_rudder_command = 0 := by
  refine ⟨rfl, by norm_num, ?_, ?_⟩ <;>
    norm_num [tack_action, initTackData]

/-- Amended C4: on the TRACKING-to-TACKING transition `tack_action` sets
boat_is_tacking and captures the four start angles from the attitude
estimator and the weather station; it does not record a turn direction:
tack_rudder_command is left unchanged (the haul is re-derived from the
live sign of -alpha_star each cycle instead), and the reference action
is returned unmodified. -/
theorem C4_tack_start (s : Settings) (ref_act : reference_actions_s)
    (td : TackData) (strs : StrsTopics) (alpha_yaw : ℚ)
    (h : td.boat_is_tacking = false) :
    (tack_action s ref_act td strs alpha_yaw).2.1.boat_is_tacking = true ∧
    (tack_action s ref_act td strs alpha_yaw).2.1.roll_before_tack 0 = strs.att_roll ∧
    (tack_action s ref_act td strs alpha_yaw).2.1.roll_before_tack 1 = strs.ws_roll_r ∧
    (tack_action s ref_act td strs alpha_yaw).2.1.yaw_before_tack 0 = strs.att_yaw ∧
    (tack_action s ref_act td strs alpha_yaw).2.1.yaw_before_tack 1 = strs.ws_heading_tn ∧
    (tack_action s ref_act td strs alpha_yaw).2.1.tack_rudder_command =
      td.tack_rudder_command ∧
    (tack_action s ref_act td strs alpha_yaw).1 = ref_act := by
  simp [tack_action, h]

/-- Closed instance of amended C4 at concrete sensor readings. -/
theorem C4_tack_start_witness :
    initTackData.boat_is_tacking = false ∧
    (tack_action stdSettings ⟨-1, true⟩ initTackData
      ⟨1/2, 1/3, 1/4, 1/5⟩ 0).2.1.roll_before_tack 0 = (1 : ℚ)/2 ∧
    (tack_action stdSettings ⟨-1, true⟩ initTackData
      ⟨1/2, 1/3, 1/4, 1/5⟩ 0).2.1.yaw_before_tack 1 = (1 : ℚ)/5 :=
  ⟨rfl,
   (C4_tack_start stdSettings ⟨-1, true⟩ initTackData ⟨1/2, 1/3, 1/4, 1/5⟩ 0 rfl).2.1,
   (C4_tack_start stdSettings ⟨-1, true⟩ initTackData ⟨1/2, 1/3, 1/4, 1/5⟩ 0 rfl).2.2.2.2.1⟩

/-- The function `tack_action` never writes `tack_rudder_command`. -/
theorem tack_action_tack_rudder_command (s : Settings)
    (ref_act : reference_actions_s) (td : TackData) (strs : StrsTopics)
    (alpha_yaw : ℚ) :
    (tack_action s ref_act td strs alpha_yaw).2.1.tack_rudder_command =
      td.tack_rudder_command := by
  unfold tack_action
  dsimp only
  split
  · split <;> rfl
  · rfl

/-- A whole `guidance_module` cycle never writes `tack_rudder_command`. -/
theorem guidance_module_tack_rudder_command (s : Settings)
    (ref_act : reference_actions_s) (pq : ParametersQgc) (td : TackData)
    (pist : PiRudderData) (scd : SailControllerData) (strs : StrsTopics)
    (alpha alpha_yaw mean_apparent : ℚ) :
    (guidance_module s ref_act pq td pist scd strs
        alpha alpha_yaw mean_apparent).tack.tack_rudder_command =
      td.tack_rudder_command := by
  unfold guidance_module
  dsimp only
  split
  · exact tack_action_tack_rudder_command s ref_act td strs alpha_yaw
  · rfl

/-- Claim C5: in every reachable program state the stored tack rudder
command still has its initial value 0 (no operation assigns it), hence
`yaw_stop_tack` always evaluates its turning-right (else) branch. -/
theorem C5_tack_rudder_command_always_zero (td : TackData)
    (h : TackDataReachable td) :
    td.tack_rudder_command = 0 ∧
    ∀ (angle : ℚ) (i : Fin 2),
      yaw_stop_tack td angle i = yaw_stop_tack_right td angle i := by
  have hcmd : td.tack_rudder_command = 0 := by
    induction h with
    | init => rfl
    | set_stop td r y _ ih => simpa [set_stop_tack] using ih
    | tack td s ref_act strs alpha_yaw _ ih =>
        rw [tack_action_tack_rudder_command]
        exact ih
    | cycle td s ref_act pq pist scd strs alpha alpha_yaw mean_apparent _ ih =>
        rw [guidance_module_tack_rudder_command]
        exact ih
  refine ⟨hcmd, fun angle i => ?_⟩
  unfold yaw_stop_tack yaw_stop_tack_right
  rw [hcmd]
  rw [if_neg (lt_irrefl (0 : ℚ))]

/-- Closed instance of C5 at the initial state. -/
theorem C5_tack_rudder_command_always_zero_witness :
    initTackData.tack_rudder_command = 0 ∧
    yaw_stop_tack initTackData 1 0 = yaw_stop_tack_right initTackData 1 0 :=
  ⟨(C5_tack_rudder_command_always_zero initTackData TackDataReachable.init).1,
   (C5_tack_rudder_command_always_zero initTackData TackDataReachable.init).2 1 0⟩

/-- The function `rudder_saturation` maps into [-RUDDER_SATURATION, RUDDER_SATURATION]
whenever the saturation constant is non-negative. -/
theorem rudder_saturation_bounds (s : Settings)
    (hR : 0 ≤ s.RUDDER_SATURATION) (c : ℚ) :
    -s.RUDDER_SATURATION ≤ rudder_saturation s c ∧
    rudder_saturation s c ≤ s.RUDDER_SATURATION := by
  unfold rudder_saturation
  split
  · exact ⟨by linarith, le_refl _⟩
  · split
    · exact ⟨le_refl _, by linarith⟩
    · rename_i h1 h2
      push_neg at h1 h2
      exact ⟨h2, h1⟩

/-- The sail clamp maps into [0, SAIL_SATURATION] whenever the
saturation constant is non-negative. -/
theorem sail_clamp_bounds (s : Settings)
    (hS : 0 ≤ s.SAIL_SATURATION) (c : ℚ) :
    0 ≤ sail_clamp s c ∧ sail_clamp s c ≤ s.SAIL_SATURATION := by
  unfold sail_clamp
  split
  · exact ⟨le_refl _, hS⟩
  · split
    · exact ⟨hS, le_refl _⟩
    · rename_i h1 h2
      push_neg at h1 h2
      exact ⟨h1, h2⟩

/-- Claim C2: every `guidance_module` cycle publishes control[0] in
[-RUDDER_SATURATION, RUDDER_SATURATION] and control[3] in
[0, SAIL_SATURATION], for every reference action, parameter set,
controller state and sensor input (manual override and helmsman outputs
included), the saturation constants being non-negative. -/
theorem C2_guidance_module_saturation (s : Settings)
    (hR : 0 ≤ s.RUDDER_SATURATION) (hS : 0 ≤ s.SAIL_SATURATION)
    (ref_act : reference_actions_s) (pq : ParametersQgc) (td : TackData)
    (pist : PiRudderData) (scd : SailControllerData) (strs : StrsTopics)
    (alpha alpha_yaw mean_apparent : ℚ) :
    -s.RUDDER_SATURATION ≤
      (guidance_module s ref_act pq td pist scd strs
        alpha alpha_yaw mean_apparent).control0 ∧
    (guidance_module s ref_act pq td pist scd strs
        alpha alpha_yaw mean_apparent).control0 ≤ s.RUDDER_SATURATION ∧
    0 ≤ (guidance_module s ref_act pq td pist scd strs
        alpha alpha_yaw mean_apparent).control3 ∧
    (guidance_module s ref_act pq td pist scd strs
        alpha alpha_yaw mean_apparent).control3 ≤ s.SAIL_SATURATION := by
  unfold guidance_module
  dsimp only
  exact ⟨(rudder_saturation_bounds s hR _).1,
         (rudder_saturation_bounds s hR _).2,
         (sail_clamp_bounds s hS _).1,
         (sail_clamp_bounds s hS _).2⟩

/-- Closed instance of C2 at a concrete cycle. -/
theorem C2_guidance_module_saturation_witness :
    (0 : ℚ) ≤ stdSettings.RUDDER_SATURATION ∧
    (0 : ℚ) ≤ stdSettings.SAIL_SATURATION ∧
    (-stdSettings.RUDDER_SATURATION ≤
      (guidance_module stdSettings ⟨1, false⟩ ⟨-1⟩ initTackData
        initPiRudderData ⟨M_PI_F/4, 1/4⟩ ⟨0, 0, 0, 0⟩ 0 0 0).control0 ∧
    (guidance_module stdSettings ⟨1, false⟩ ⟨-1⟩ initTackData
        initPiRudderData ⟨M_PI_F/4, 1/4⟩ ⟨0, 0, 0, 0⟩ 0 0 0).control0 ≤
      stdSettings.RUDDER_SATURATION ∧
    0 ≤ (guidance_module stdSettings ⟨1, false⟩ ⟨-1⟩ initTackData
        initPiRudderData ⟨M_PI_F/4, 1/4⟩ ⟨0, 0, 0, 0⟩ 0 0 0).control3 ∧
    (guidance_module stdSettings ⟨1, false⟩ ⟨-1⟩ initTackData
        initPiRudderData ⟨M_PI_F/4, 1/4⟩ ⟨0, 0, 0, 0⟩ 0 0 0).control3 ≤
      stdSettings.SAIL_SATURATION) :=
  ⟨by norm_num [stdSettings], by norm_num [stdSettings],
   C2_guidance_module_saturation stdSettings
     (by norm_num [stdSettings]) (by norm_num [stdSettings])
     ⟨1, false⟩ ⟨-1⟩ initTackData initPiRudderData ⟨M_PI_F/4, 1/4⟩
     ⟨0, 0, 0, 0⟩ 0 0 0⟩

/-- Claim C1 is false on the completion cycle: with the machine mid-tack
and should_tack set, and sensors satisfying the completion check, the
published rudder is the PI output (0 here) and not the helmsman command
(0.35 here): the second `if` of `guidance_module` overwrites the
helmsman outputs within the same cycle the tack completes. -/
theorem C1_counterexample :
    C1cexTd.boat_is_tacking = true ∧
    is_tack_completed C1cexTd C1cexStrs = true ∧
    (guidance_module stdSettings ⟨1, true⟩ ⟨1/2⟩ C1cexTd initPiRudderData
      ⟨M_PI_F/4, 1/4⟩ C1cexStrs 0 (-1) 0).control0 = 0 ∧
    rudder_saturation stdSettings (helmsman_tack_p2s stdSettings (-1)).1 = 35/100 ∧
    ((0 : ℚ)) ≠ 35/100 := by
  refine ⟨rfl, ?_, ?_, ?_, by norm_num⟩
  · norm_num [is_tack_completed, roll_stop_tack, yaw_stop_tack,
      C1cexTd, C1cexStrs]
  · norm_num [guidance_module, tack_action, is_tack_completed,
      roll_stop_tack, yaw_stop_tack, pi_controller, rudder_saturation,
      C1cexTd, C1cexStrs, initPiRudderData, stdSettings]
  · norm_num [rudder_saturation, helmsman_tack_p2s, stdSettings]

/-- Amended C1: while tacking with should_tack set, when the completion
check is false that cycle the published commands are the saturated
helmsman commands; on the cycle `is_tack_completed` returns true,
`tack_action` clears should_tack and `guidance_module` immediately
replaces the helmsman outputs with the PI and sail-trim (or manual
override) outputs within that same cycle. -/
theorem C1_guidance_module_tacking_cycle (s : Settings)
    (ref_act : reference_actions_s) (pq : ParametersQgc) (td : TackData)
    (pist : PiRudderData) (scd : SailControllerData) (strs : StrsTopics)
    (alpha alpha_yaw mean_apparent : ℚ)
    (hst : ref_act.should_tack = true) (htk : td.boat_is_tacking = true) :
    (is_tack_completed td strs = false →
      (guidance_module s ref_act pq td pist scd strs
          alpha alpha_yaw mean_apparent).control0 =
        rudder_saturation s
          (if -ref_act.alpha_star < 0 then helmsman_tack_p2s s alpha_yaw
           else helmsman_tack_s2p s alpha_yaw).1 ∧
      (guidance_module s ref_act pq td pist scd strs
          alpha alpha_yaw mean_apparent).control3 =
        sail_clamp s
          (if -ref_act.alpha_star < 0 then helmsman_tack_p2s s alpha_yaw
           else helmsman_tack_s2p s alpha_yaw).2) ∧
    (is_tack_completed td strs = true →
      (guidance_module s ref_act pq td pist scd strs
          alpha alpha_yaw mean_apparent).control0 =
        rudder_saturation s (pi_controller s pist ref_act.alpha_star alpha).1 ∧
      (guidance_module s ref_act pq td pist scd strs
          alpha alpha_yaw mean_apparent).control3 =
        sail_clamp s
          (if pq.sail_servo < 0 then sail_controller s scd mean_apparent
           else pq.sail_servo)) := by
  constructor
  · intro hc
    by_cases hph : -ref_act.alpha_star < 0
    · simp [guidance_module, tack_action, hst, htk, hc, hph]
    · simp [guidance_module, tack_action, hst, htk, hc, hph]
  · intro hc
    by_cases hsa : pq.sail_servo < 0
    · simp [guidance_module, tack_action, hst, htk, hc, hsa]
    · simp [guidance_module, tack_action, hst, htk, hc, hsa]

/-- Closed instance of amended C1, non-completion branch: mid-tack with
the completion check false, the published commands are the saturated
helmsman port-to-starboard commands. -/
theorem C1_guidance_module_tacking_cycle_witness :
    (⟨1, true⟩ : reference_actions_s).should_tack = true ∧
    C1witTd.boat_is_tacking = true ∧
    is_tack_completed C1witTd C1cexStrs = false ∧
    ((guidance_module stdSettings ⟨1, true⟩ ⟨1/2⟩ C1witTd initPiRudderData
        ⟨M_PI_F/4, 1/4⟩ C1cexStrs 0 (-1) 0).control0 =
      rudder_saturation stdSettings
        (if -(⟨1, true⟩ : reference_actions_s).alpha_star < 0 then
           helmsman_tack_p2s stdSettings (-1)
         else helmsman_tack_s2p stdSettings (-1)).1 ∧
     (guidance_module stdSettings ⟨1, true⟩ ⟨1/2⟩ C1witTd initPiRudderData
        ⟨M_PI_F/4, 1/4⟩ C1cexStrs 0 (-1) 0).control3 =
      sail_clamp stdSettings
        (if -(⟨1, true⟩ : reference_actions_s).alpha_star < 0 then
           helmsman_tack_p2s stdSettings (-1)
         else helmsman_tack_s2p stdSettings (-1)).2) :=
  ⟨rfl, rfl,
   by norm_num [is_tack_completed, roll_stop_tack, yaw_stop_tack,
     C1witTd, C1cexTd, C1cexStrs],
   (C1_guidance_module_tacking_cycle stdSettings ⟨1, true⟩ ⟨1/2⟩ C1witTd
      initPiRudderData ⟨M_PI_F/4, 1/4⟩ C1cexStrs 0 (-1) 0 rfl rfl).1
     (by norm_num [is_tack_completed, roll_stop_tack, yaw_stop_tack,
       C1witTd, C1cexTd, C1cexStrs])⟩
